import Mathlib

/-!
Shallow embedding of the `EventProcessor` coordinator from
`sdk/cognitiveservices/cognitiveservices-formrecognizer/src/models/index.ts`
(the second, event-processor half of the file; the first half is generated
HTTP DTOs and is out of scope).

External collaborators (checkpoint store, transport, pump manager, the
user error handler, the load balancer and the abort signal) are not under
`src/`; they are modelled as an environment record of oracles, one field per
awaited call, each returning `Except JSError _` so that a rejected promise
is a `.error`.  Every method of the class is translated into a total Lean
function over processor configuration, mutable state and that environment,
returning the traces (store writes, pump starts, handler invocations) the
claims talk about.
-/

/-- A JavaScript `Error` value, reduced to the fields the code reads:
`err.name` (used to filter `"AbortError"`) and a message. -/
structure JSError where
  name : String
  message : String
  deriving DecidableEq, Repr

/-- `PartitionOwnership` record, from the interface at lines 414-444 of the
source.  Optional TS fields become `Option`. -/
structure PartitionOwnership where
  fullyQualifiedNamespace : String
  eventHubName : String
  consumerGroup : String
  partitionId : String
  ownerId : String
  lastModifiedTimeInMs : Option Nat
  etag : Option String
  deriving DecidableEq, Repr

/-- `Checkpoint` record.  Modelled from the spec: `partitionProcessor.ts` is
not under `src/`; the spec gives the composite key plus `offset` and
`sequenceNumber`.  Offsets are opaque strings (spec scenario S5 writes
`offset:"42"`). -/
structure Checkpoint where
  fullyQualifiedNamespace : String
  eventHubName : String
  consumerGroup : String
  partitionId : String
  offset : String
  sequenceNumber : Int
  deriving DecidableEq, Repr

/-- `EventPosition`, reduced to the three properties the source reads in
`getStartPosition`: `offset`, `sequenceNumber`, `enqueuedOn`. -/
structure EventPosition where
  offset : Option String := none
  sequenceNumber : Option Int := none
  enqueuedOn : Option Int := none
  deriving DecidableEq, Repr

/-- Modelled from the spec: `eventPosition.ts` is not under `src/`.  The
"latest" position is an opaque sentinel; we represent it by its
conventional `"@latest"` offset marker. -/
def latestEventPosition : EventPosition :=
  { offset := some "@latest" }

/-- The TS union `EventPosition | { [partitionId: string]: EventPosition }`
accepted for `startPosition` options, as the tagged sum prescribed by the design
notes of the spec.  A per-partition object is an association list keyed by
partition id. -/
inductive StartPositions where
  | single (pos : EventPosition)
  | perPartition (m : List (String × EventPosition))
  deriving DecidableEq, Repr

/-- Property read `obj[partitionId]` on a partition-keyed object. -/
def lookupPosition (m : List (String × EventPosition)) (k : String) :
    Option EventPosition :=
  (m.find? (fun e => e.1 == k)).map (fun e => e.2)

/-- `getStartPosition` (source lines 951-976).  The TS duck-typing test
`startPositions.offset != undefined || startPositions.sequenceNumber !=
undefined || startPositions.enqueuedOn != undefined` is read off a single
`EventPosition` directly; on a partition-keyed object those three property
reads yield `undefined` (Event Hubs partition ids are numeric strings, so
the keys never collide with the three property names), and indexing a
single `EventPosition` by a partition id likewise yields `undefined`. -/
def getStartPosition (partitionIdToClaim : String)
    (startPositions : Option StartPositions) : EventPosition :=
  match startPositions with
  | none => latestEventPosition
  | some (StartPositions.single pos) =>
    if pos.offset.isSome || pos.sequenceNumber.isSome || pos.enqueuedOn.isSome then
      pos
    else
      latestEventPosition
  | some (StartPositions.perPartition m) =>
    match lookupPosition m partitionIdToClaim with
    | some startPosition => startPosition
    | none => latestEventPosition

/-- `isAbandoned` (source lines 947-949). -/
def isAbandoned (ownership : PartitionOwnership) : Bool :=
  ownership.ownerId == ""

/-- The `_processingTarget` field: `PartitionLoadBalancer | string`.  The
balancer object itself lives outside `src/`; its `loadBalance` method is an
environment oracle below, so the balanced tag carries no payload. -/
inductive ProcessingTarget where
  | singlePartition (partitionId : String)
  | balanced
  deriving DecidableEq, Repr

/-- `targetWithoutOwnership` (source lines 978-980): the `typeof target ===
"string"` discriminator. -/
def targetWithoutOwnership : ProcessingTarget → Bool
  | ProcessingTarget.singlePartition _ => true
  | ProcessingTarget.balanced => false

/-- Constructor options (subset of `FullEventProcessorOptions` the
embedded code reads).  A TS field that may be `undefined` is an `Option`;
a numeric field explicitly set to `0` is `some 0`. -/
structure FullEventProcessorOptions where
  ownerId : Option String := none
  loopIntervalInMs : Option Nat := none
  inactiveTimeLimitInMs : Option Nat := none
  startPosition : Option StartPositions := none
  processingTarget : Option ProcessingTarget := none
  deriving Repr

/-- JS truthiness of a possibly-undefined number: `undefined` and `0` are
falsy. -/
def jsNumberIsTruthy : Option Nat → Bool
  | none => false
  | some n => !(n == 0)

/-- The `_loopIntervalInMs` value after construction (source lines 572 and
609-611): field default `10000`, overwritten only when
`options.loopIntervalInMs` is truthy. -/
def EventProcessor.resolveLoopIntervalInMs
    (options : FullEventProcessorOptions) : Nat :=
  match options.loopIntervalInMs with
  | some n => if !(n == 0) then n else 10000
  | none => 10000

/-- The `inactiveTimeLimitInMS` value computed in the constructor (source
lines 573 and 606): `options.inactiveTimeLimitInMs ||
this._inactiveTimeLimitInMs` with field default `60000`; `||` keeps the
left operand only when truthy. -/
def EventProcessor.resolveInactiveTimeLimitInMs
    (options : FullEventProcessorOptions) : Nat :=
  match options.inactiveTimeLimitInMs with
  | some n => if !(n == 0) then n else 60000
  | none => 60000

/-- Immutable per-instance configuration of an `EventProcessor` after
construction: `_id`, `_consumerGroup`, the two client properties the code
reads off `_eventHubClient`, `_processorOptions.startPosition` and
`_processingTarget`. -/
structure EventProcessor where
  id : String
  consumerGroup : String
  fullyQualifiedNamespace : String
  eventHubName : String
  startPosition : Option StartPositions := none
  processingTarget : ProcessingTarget
  deriving Repr

/-- The context passed to the user `processError` handler (source lines
839-845). -/
structure ErrorContext where
  fullyQualifiedNamespace : String
  eventHubName : String
  consumerGroup : String
  partitionId : String
  updateCheckpoint : Unit → Except JSError Unit

/-- The environment of external collaborators: each field is the observed
behaviour of one awaited call.  `Except` carries promise rejection. -/
structure Env where
  /-- `this._pumpManager.removeAllPumps(CloseReason.Shutdown)` -/
  removeAllPumps : Except JSError Unit
  /-- awaiting `this._loopTask` -/
  loopOutcome : Except JSError Unit
  /-- `this._checkpointStore.listOwnership(ns, hub, group)` -/
  listOwnership : Except JSError (List PartitionOwnership)
  /-- `this._checkpointStore.claimOwnership(batch)` -/
  claimOwnership : List PartitionOwnership → Except JSError (List PartitionOwnership)
  /-- `this._eventHubClient.getPartitionIds({abortSignal})` -/
  getPartitionIds : Except JSError (List String)
  /-- the value of `abortSignal.aborted` read right after the partition-id
  fetch (source line 783) -/
  abortedAfterFetch : Bool
  /-- `loadBalancer.loadBalance(id, map, partitionIds)`; `none` models an
  `undefined` return, which the source guards with `if (partitionsToClaim)` -/
  loadBalance : String → List (String × PartitionOwnership) → List String →
    Option (List String)
  /-- `this._pumpManager.isReceivingFromPartition(partitionId)` -/
  isReceivingFromPartition : String → Bool
  /-- `this._checkpointStore.listCheckpoints(ns, hub, group)` -/
  listCheckpoints : Except JSError (List Checkpoint)
  /-- `this._pumpManager.createPump(eventPosition, client, processor)` -/
  createPump : EventPosition → Except JSError Unit
  /-- the user handler `this._subscriptionEventHandlers.processError`,
  absent when the user supplied none -/
  processError : Option (JSError → ErrorContext → Except JSError Unit)

/-- The error context built at source lines 839-845: the processor
coordinates, an empty `partitionId`, and the no-op
`updateCheckpoint: async () => \x7b\x7d`. -/
def EventProcessor.errorContextFor (p : EventProcessor) : ErrorContext :=
  { fullyQualifiedNamespace := p.fullyQualifiedNamespace
    eventHubName := p.eventHubName
    consumerGroup := p.consumerGroup
    partitionId := ""
    updateCheckpoint := fun _ => Except.ok () }

/-- `_handleSubscriptionError` (source lines 831-852).  Returns the list of
`processError` invocations (error paired with the context it was given)
and the outcome of the method itself.  `"AbortError"` is filtered before delivery;
when the handler is invoked, its result is consumed by the inner
`try/catch`, which only logs, so the outcome is `.ok` in both branches. -/
def EventProcessor.handleSubscriptionError (p : EventProcessor) (env : Env)
    (err : JSError) : List (JSError × ErrorContext) × Except JSError Unit :=
  if err.name == "AbortError" then
    ([], Except.ok ())
  else
    match env.processError with
    | none => ([], Except.ok ())
    | some handler =>
      match handler err (EventProcessor.errorContextFor p) with
      | Except.ok _ => ([(err, EventProcessor.errorContextFor p)], Except.ok ())
      | Except.error _ => ([(err, EventProcessor.errorContextFor p)], Except.ok ())

/-- Association-list image of a TS `Map<string, PartitionOwnership>`. -/
abbrev OwnershipMap := List (String × PartitionOwnership)

/-- `Map.prototype.set`: overwrite an existing key, else append. -/
def mapSet (m : OwnershipMap) (k : String) (v : PartitionOwnership) :
    OwnershipMap :=
  if m.any (fun e => e.1 == k) then
    m.map (fun e => if e.1 == k then (k, v) else e)
  else
    m ++ [(k, v)]

/-- `Map.prototype.get`. -/
def mapGet (m : OwnershipMap) (k : String) : Option PartitionOwnership :=
  (m.find? (fun e => e.1 == k)).map (fun e => e.2)

/-- `Map.prototype.has`. -/
def mapHas (m : OwnershipMap) (k : String) : Bool :=
  (mapGet m k).isSome

/-- The classification loop at source lines 769-778: abandoned ownerships
go to `abandonedMap`, the rest to `partitionOwnershipMap`. -/
def partitionMaps (ownerships : List PartitionOwnership) :
    OwnershipMap × OwnershipMap :=
  ownerships.foldl
    (fun maps ownership =>
      if isAbandoned ownership then
        (mapSet maps.1 ownership.partitionId ownership, maps.2)
      else
        (maps.1, mapSet maps.2 ownership.partitionId ownership))
    ([], [])

/-- `_createPartitionOwnershipRequest` (source lines 623-638). -/
def EventProcessor.createPartitionOwnershipRequest (p : EventProcessor)
    (partitionOwnershipMap : OwnershipMap) (partitionIdToClaim : String) :
    PartitionOwnership :=
  let previousPartitionOwnership := mapGet partitionOwnershipMap partitionIdToClaim
  { ownerId := p.id
    partitionId := partitionIdToClaim
    fullyQualifiedNamespace := p.fullyQualifiedNamespace
    consumerGroup := p.consumerGroup
    eventHubName := p.eventHubName
    lastModifiedTimeInMs := none
    etag := match previousPartitionOwnership with
            | some prev => prev.etag
            | none => none }

/-- The request-selection branch of the balanced loop (source lines
797-807): build the claim request from `abandonedMap` when it has the
partition, else from `partitionOwnershipMap`. -/
def EventProcessor.ownershipRequestFor (p : EventProcessor)
    (abandonedMap partitionOwnershipMap : OwnershipMap)
    (partitionToClaim : String) : PartitionOwnership :=
  if mapHas abandonedMap partitionToClaim then
    EventProcessor.createPartitionOwnershipRequest p abandonedMap partitionToClaim
  else
    EventProcessor.createPartitionOwnershipRequest p partitionOwnershipMap partitionToClaim

/-- `_getStartingPosition` (source lines 700-719): fetch the checkpoints,
keep those of the claimed partition, use the offset of the first one, else fall
back to `getStartPosition`. -/
def EventProcessor.getStartingPosition (p : EventProcessor) (env : Env)
    (partitionIdToClaim : String) : Except JSError EventPosition :=
  match env.listCheckpoints with
  | Except.error e => Except.error e
  | Except.ok availableCheckpoints =>
    let validCheckpoints :=
      availableCheckpoints.filter (fun chk => chk.partitionId == partitionIdToClaim)
    match validCheckpoints with
    | chk :: _ =>
      Except.ok { offset := some chk.offset, sequenceNumber := none, enqueuedOn := none }
    | [] => Except.ok (getStartPosition partitionIdToClaim p.startPosition)

/-- `_startPump` (source lines 670-698): skip when a pump is already
receiving, else resolve the starting position and create a pump.  Returns
the `createPump` calls made, or the error a failing await threw. -/
def EventProcessor.startPump (p : EventProcessor) (env : Env)
    (partitionId : String) : Except JSError (List (String × EventPosition)) :=
  if env.isReceivingFromPartition partitionId then
    Except.ok []
  else
    match EventProcessor.getStartingPosition p env partitionId with
    | Except.error e => Except.error e
    | Except.ok eventPosition =>
      match env.createPump eventPosition with
      | Except.error e => Except.error e
      | Except.ok _ => Except.ok [(partitionId, eventPosition)]

/-- Observable actions of one `_claimOwnership` call. -/
structure ClaimTrace where
  /-- batches submitted to `checkpointStore.claimOwnership` -/
  claimBatches : List (List PartitionOwnership)
  /-- partitions for which `_startPump` was invoked -/
  pumpStartPartitions : List String
  /-- pumps actually created -/
  pumpsCreated : List (String × EventPosition)
  /-- `processError` invocations -/
  errorsDelivered : List (JSError × ErrorContext)

/-- `_claimOwnership` (source lines 643-668).  The whole body is inside
`try/catch`, the catch delegating to `_handleSubscriptionError`, so the
method always completes normally; an empty claimed list returns before
`_startPump`. -/
def EventProcessor.claimOwnershipCall (p : EventProcessor) (env : Env)
    (ownershipRequest : PartitionOwnership) : ClaimTrace :=
  match env.claimOwnership [ownershipRequest] with
  | Except.error err =>
    { claimBatches := [[ownershipRequest]]
      pumpStartPartitions := []
      pumpsCreated := []
      errorsDelivered := (EventProcessor.handleSubscriptionError p env err).1 }
  | Except.ok [] =>
    { claimBatches := [[ownershipRequest]]
      pumpStartPartitions := []
      pumpsCreated := []
      errorsDelivered := [] }
  | Except.ok (_ :: _) =>
    match EventProcessor.startPump p env ownershipRequest.partitionId with
    | Except.ok created =>
      { claimBatches := [[ownershipRequest]]
        pumpStartPartitions := [ownershipRequest.partitionId]
        pumpsCreated := created
        errorsDelivered := [] }
    | Except.error err =>
      { claimBatches := [[ownershipRequest]]
        pumpStartPartitions := [ownershipRequest.partitionId]
        pumpsCreated := []
        errorsDelivered := (EventProcessor.handleSubscriptionError p env err).1 }

/-- Observable actions of one iteration of the balanced loop body. -/
structure IterationTrace where
  /-- the `return` at source line 784 was taken -/
  returnedEarly : Bool
  /-- `loadBalancer.loadBalance` was invoked -/
  loadBalanceInvoked : Bool
  claimBatches : List (List PartitionOwnership)
  pumpStartPartitions : List String
  pumpsCreated : List (String × EventPosition)
  errorsDelivered : List (JSError × ErrorContext)

/-- One iteration of the `while` body of `_runLoopWithLoadBalancing`
(source lines 759-825), entered with the signal not yet aborted.  Errors
thrown by the store or transport reach the `catch`, which forwards to
`_handleSubscriptionError`; the `finally` sleep is outside the observable
trace. -/
def EventProcessor.balancedIteration (p : EventProcessor) (env : Env) :
    IterationTrace :=
  match env.listOwnership with
  | Except.error err =>
    { returnedEarly := false, loadBalanceInvoked := false, claimBatches := []
      pumpStartPartitions := [], pumpsCreated := []
      errorsDelivered := (EventProcessor.handleSubscriptionError p env err).1 }
  | Except.ok partitionOwnership =>
    let maps := partitionMaps partitionOwnership
    match env.getPartitionIds with
    | Except.error err =>
      { returnedEarly := false, loadBalanceInvoked := false, claimBatches := []
        pumpStartPartitions := [], pumpsCreated := []
        errorsDelivered := (EventProcessor.handleSubscriptionError p env err).1 }
    | Except.ok partitionIds =>
      if env.abortedAfterFetch then
        { returnedEarly := true, loadBalanceInvoked := false, claimBatches := []
          pumpStartPartitions := [], pumpsCreated := [], errorsDelivered := [] }
      else if partitionIds.length > 0 then
        match env.loadBalance p.id maps.2 partitionIds with
        | none =>
          { returnedEarly := false, loadBalanceInvoked := true, claimBatches := []
            pumpStartPartitions := [], pumpsCreated := [], errorsDelivered := [] }
        | some partitionsToClaim =>
          let traces := partitionsToClaim.map (fun partitionToClaim =>
            EventProcessor.claimOwnershipCall p env
              (EventProcessor.ownershipRequestFor p maps.1 maps.2 partitionToClaim))
          { returnedEarly := false
            loadBalanceInvoked := true
            claimBatches := (traces.map (fun t => t.claimBatches)).flatten
            pumpStartPartitions := (traces.map (fun t => t.pumpStartPartitions)).flatten
            pumpsCreated := (traces.map (fun t => t.pumpsCreated)).flatten
            errorsDelivered := (traces.map (fun t => t.errorsDelivered)).flatten }
      else
        { returnedEarly := false, loadBalanceInvoked := false, claimBatches := []
          pumpStartPartitions := [], pumpsCreated := [], errorsDelivered := [] }

/-- Mutable lifecycle state of a processor instance: `_isRunning`,
`_abortController` and `_loopTask`.  Controllers and loop tasks are
identified by generation numbers so that freshness is expressible;
`nextGen` is the supply of unused generations and `loopsLaunched` counts
every loop ever started (ghost instrumentation for the idempotence
claims). -/
structure ProcState where
  isRunning : Bool
  /-- generation of the current `AbortController`, `none` before the first
  `start()` -/
  abortGen : Option Nat
  /-- whether the signal of the current controller has been aborted -/
  signalAborted : Bool
  /-- generation of the current `_loopTask`, `none` before the first
  `start()` -/
  loopGen : Option Nat
  loopsLaunched : Nat
  nextGen : Nat
  deriving DecidableEq, Repr

/-- State of a freshly constructed processor. -/
def ProcState.initial : ProcState :=
  { isRunning := false, abortGen := none, signalAborted := false
    loopGen := none, loopsLaunched := 0, nextGen := 0 }

/-- Generations handed out so far lie below `nextGen`. -/
def ProcState.wf (s : ProcState) : Prop :=
  ∀ g, s.abortGen = some g → g < s.nextGen

/-- `start` (source lines 865-888): a no-op while running; otherwise set
`_isRunning`, install a fresh `AbortController` and launch the loop bound
to its signal.  Which loop body runs depends on `_processingTarget`, but
the state transition is the same for both. -/
def EventProcessor.start (s : ProcState) : ProcState :=
  if s.isRunning then
    s
  else
    { isRunning := true
      abortGen := some s.nextGen
      signalAborted := false
      loopGen := some s.nextGen
      loopsLaunched := s.loopsLaunched + 1
      nextGen := s.nextGen + 1 }

/-- The request batch built by `abandonPartitionOwnerships` (source lines
938-942): keep the rows owned by this instance and blank their `ownerId`
in place, every other field (etag included) untouched. -/
def EventProcessor.abandonRequests (p : EventProcessor)
    (allOwnerships : List PartitionOwnership) : List PartitionOwnership :=
  (allOwnerships.filter (fun ownership => ownership.ownerId == p.id)).map
    (fun ownership => { ownership with ownerId := "" })

/-- `abandonPartitionOwnerships` (source lines 931-944): re-list the
ownerships, blank the rows of this instance and submit them in one
`claimOwnership` batch, returning the reply of the store.  No step is guarded:
a rejection from either store call propagates to the caller. -/
def EventProcessor.abandonPartitionOwnerships (p : EventProcessor)
    (env : Env) : Except JSError (List PartitionOwnership) :=
  match env.listOwnership with
  | Except.error e => Except.error e
  | Except.ok allOwnerships =>
    env.claimOwnership (EventProcessor.abandonRequests p allOwnerships)

/-- `stop` (source lines 901-929): abort the current controller if any,
clear `_isRunning`, then `try` awaiting `removeAllPumps` and the loop task
with a `catch` that only logs — their failures are swallowed.  After the
`try/finally`, in balanced mode `abandonPartitionOwnerships()` is awaited
OUTSIDE any `try/catch`, so its rejection is the rejection of `stop()`
itself. -/
def EventProcessor.stop (p : EventProcessor) (env : Env) (s : ProcState) :
    ProcState × Except JSError Unit :=
  let s1 : ProcState :=
    if s.abortGen.isSome then { s with signalAborted := true } else s
  let s2 : ProcState := { s1 with isRunning := false }
  let _pumpRemoval := env.removeAllPumps
  let _loopCompletion :=
    if s2.loopGen.isSome then env.loopOutcome else Except.ok ()
  if targetWithoutOwnership p.processingTarget then
    (s2, Except.ok ())
  else
    match EventProcessor.abandonPartitionOwnerships p env with
    | Except.ok _ => (s2, Except.ok ())
    | Except.error e => (s2, Except.error e)

/-! Concrete fixtures used to evaluate the development on closed inputs. -/

/-- A processor in balanced mode with owner id `"A"`. -/
def procBalanced : EventProcessor :=
  { id := "A"
    consumerGroup := "$Default"
    fullyQualifiedNamespace := "ns.servicebus.windows.net"
    eventHubName := "hub"
    startPosition := none
    processingTarget := ProcessingTarget.balanced }

/-- An environment where every collaborator succeeds: the store is empty,
the hub has one partition, claims succeed verbatim, no user error
handler. -/
def envOk : Env :=
  { removeAllPumps := Except.ok ()
    loopOutcome := Except.ok ()
    listOwnership := Except.ok []
    claimOwnership := fun batch => Except.ok batch
    getPartitionIds := Except.ok ["0"]
    abortedAfterFetch := false
    loadBalance := fun _ _ partitionIds => some partitionIds
    isReceivingFromPartition := fun _ => false
    listCheckpoints := Except.ok []
    createPump := fun _ => Except.ok ()
    processError := none }

/-- A checkpoint for partition `"0"` at offset `"42"` (spec scenario S5). -/
def chkW : Checkpoint :=
  { fullyQualifiedNamespace := "ns.servicebus.windows.net"
    eventHubName := "hub"
    consumerGroup := "$Default"
    partitionId := "0"
    offset := "42"
    sequenceNumber := 7 }

/-- An abandoned ownership row for partition `"0"`. -/
def rowAbandoned : PartitionOwnership :=
  { fullyQualifiedNamespace := "ns.servicebus.windows.net"
    eventHubName := "hub"
    consumerGroup := "$Default"
    partitionId := "0"
    ownerId := ""
    lastModifiedTimeInMs := some 5
    etag := some "e1" }

/-- A row for partition `"1"` live-owned by peer `"B"`. -/
def rowOwnedByB : PartitionOwnership :=
  { fullyQualifiedNamespace := "ns.servicebus.windows.net"
    eventHubName := "hub"
    consumerGroup := "$Default"
    partitionId := "1"
    ownerId := "B"
    lastModifiedTimeInMs := some 6
    etag := some "e2" }

/-- A row for partition `"2"` owned by this instance `"A"`. -/
def rowOwnedByA : PartitionOwnership :=
  { fullyQualifiedNamespace := "ns.servicebus.windows.net"
    eventHubName := "hub"
    consumerGroup := "$Default"
    partitionId := "2"
    ownerId := "A"
    lastModifiedTimeInMs := some 7
    etag := some "e3" }

/-- A claim request fixture. -/
def reqW : PartitionOwnership :=
  { fullyQualifiedNamespace := "ns.servicebus.windows.net"
    eventHubName := "hub"
    consumerGroup := "$Default"
    partitionId := "0"
    ownerId := "A"
    lastModifiedTimeInMs := none
    etag := none }

/-- `envOk` with one checkpoint on record. -/
def envChk : Env := { envOk with listCheckpoints := Except.ok [chkW] }

/-- `envOk` with one abandoned and one live foreign row, and three
partitions. -/
def envTwoRows : Env :=
  { envOk with
    listOwnership := Except.ok [rowAbandoned, rowOwnedByB]
    getPartitionIds := Except.ok ["0", "1", "2"] }

/-- `envOk` with rows owned by `"A"` and by `"B"` on record. -/
def envAbandon : Env :=
  { envOk with listOwnership := Except.ok [rowOwnedByA, rowOwnedByB] }

/-- The error a failing `listOwnership` call rejects with. -/
def listFailure : JSError :=
  { name := "Error", message := "listOwnership unavailable" }

/-- `envOk` whose `listOwnership` rejects. -/
def envListThrows : Env :=
  { envOk with listOwnership := Except.error listFailure }

/-- `envOk` where closing pumps and the loop task both fail. -/
def envPumpsFail : Env :=
  { envOk with
    removeAllPumps := Except.error { name := "Error", message := "pump close failed" }
    loopOutcome := Except.error { name := "Error", message := "loop crashed" } }

/-- `envOk` with a user `processError` handler that itself throws. -/
def envHandlerThrows : Env :=
  { envOk with
    processError :=
      some (fun _ _ => Except.error { name := "Error", message := "user handler threw" }) }

/-- `envOk` whose `claimOwnership` reports that every row was lost to a
peer (empty success list). -/
def envClaimEmpty : Env :=
  { envOk with claimOwnership := fun _ => Except.ok [] }

/-- `envOk` whose abort signal is observed aborted right after the
partition-id fetch. -/
def envAborted : Env := { envOk with abortedAfterFetch := true }

/-! Helper lemmas. -/

/-- Every `_claimOwnership` call submits exactly one store batch holding
exactly its request, on every branch. -/
theorem claimOwnershipCall_claimBatches (p : EventProcessor) (env : Env)
    (req : PartitionOwnership) :
    (EventProcessor.claimOwnershipCall p env req).claimBatches = [[req]] := by
  unfold EventProcessor.claimOwnershipCall
  cases h : env.claimOwnership [req] with
  | error e => rfl
  | ok l =>
    cases l with
    | nil => rfl
    | cons o rest =>
      cases hs : EventProcessor.startPump p env req.partitionId <;> rfl

/-- Flattening singleton images is mapping. -/
theorem flatten_map_singleton {α β : Type} (f : α → β) (l : List α) :
    (l.map (fun a => [f a])).flatten = l.map f := by
  induction l with
  | nil => rfl
  | cons a t ih => simp [ih]

/-! Claim theorems. -/

/-- C10: constructing an `EventProcessor` with `loopIntervalInMs = 0`
yields the default loop interval of 10000 ms, and with
`inactiveTimeLimitInMs = 0` the default inactivity limit of 60000 ms,
because both options are tested for truthiness (`if (options.x)` and
`x || default`) rather than presence. -/
theorem zero_tunables_fall_back_to_defaults :
    EventProcessor.resolveLoopIntervalInMs { loopIntervalInMs := some 0 } = 10000 ∧
    EventProcessor.resolveInactiveTimeLimitInMs { inactiveTimeLimitInMs := some 0 } = 60000 :=
  ⟨rfl, rfl⟩

/-- C4: for every error named `"AbortError"`, `_handleSubscriptionError`
invokes no user handler and completes normally: cancellation sentinels are
filtered before delivery. -/
theorem cancellation_purity (p : EventProcessor) (env : Env) (err : JSError)
    (h : err.name = "AbortError") :
    EventProcessor.handleSubscriptionError p env err = ([], Except.ok ()) := by
  unfold EventProcessor.handleSubscriptionError
  simp [h]

/-- Witness for C4: an aborted-run sentinel is dropped even though a user
handler (one that would itself throw) is installed. -/
theorem cancellation_purity_witness :
    EventProcessor.handleSubscriptionError procBalanced envHandlerThrows
      { name := "AbortError", message := "The operation was aborted." }
      = ([], Except.ok ()) :=
  cancellation_purity procBalanced envHandlerThrows
    { name := "AbortError", message := "The operation was aborted." } rfl

/-- C8: every loop error not named `"AbortError"` is delivered to the user
`processError` handler when one is present, with context fields equal to
the processor namespace, hub and consumer group, an empty `partitionId`
and a no-op `updateCheckpoint`; and whatever the handler does (including
throwing), `_handleSubscriptionError` completes normally. -/
theorem error_delivery_contract (p : EventProcessor) (env : Env) (err : JSError)
    (handler : JSError → ErrorContext → Except JSError Unit)
    (hname : err.name ≠ "AbortError")
    (hhandler : env.processError = some handler) :
    (EventProcessor.handleSubscriptionError p env err).1
      = [(err, EventProcessor.errorContextFor p)] ∧
    (EventProcessor.errorContextFor p).fullyQualifiedNamespace = p.fullyQualifiedNamespace ∧
    (EventProcessor.errorContextFor p).eventHubName = p.eventHubName ∧
    (EventProcessor.errorContextFor p).consumerGroup = p.consumerGroup ∧
    (EventProcessor.errorContextFor p).partitionId = "" ∧
    (EventProcessor.errorContextFor p).updateCheckpoint = (fun _ => Except.ok ()) ∧
    (EventProcessor.handleSubscriptionError p env err).2 = Except.ok () := by
  have hb : (err.name == "AbortError") = false := beq_eq_false_iff_ne.mpr hname
  unfold EventProcessor.handleSubscriptionError
  rw [hb, hhandler]
  simp only [Bool.false_eq_true, if_false]
  cases hr : handler err (EventProcessor.errorContextFor p) <;>
    exact ⟨rfl, rfl, rfl, rfl, rfl, rfl, rfl⟩

/-- Witness for C8: a concrete non-abort error is delivered with the
contractual context even though the installed handler throws, and the
method still completes normally. -/
theorem error_delivery_contract_witness :
    (EventProcessor.handleSubscriptionError procBalanced envHandlerThrows
      { name := "Error", message := "boom" }).1
      = [({ name := "Error", message := "boom" },
          EventProcessor.errorContextFor procBalanced)] ∧
    (EventProcessor.handleSubscriptionError procBalanced envHandlerThrows
      { name := "Error", message := "boom" }).2 = Except.ok () := by
  have h := error_delivery_contract procBalanced envHandlerThrows
    { name := "Error", message := "boom" }
    (fun _ _ => Except.error { name := "Error", message := "user handler threw" })
    (by decide) rfl
  exact ⟨h.1, h.2.2.2.2.2.2⟩

/-- C5: when the store answers a claim attempt with an empty list the
processor starts no pump and raises no error to the user; when the
returned list is non-empty it proceeds to `_startPump` for the request
partition id. -/
theorem claim_attempt_outcome (p : EventProcessor) (env : Env)
    (req : PartitionOwnership) :
    (env.claimOwnership [req] = Except.ok [] →
      (EventProcessor.claimOwnershipCall p env req).pumpStartPartitions = [] ∧
      (EventProcessor.claimOwnershipCall p env req).pumpsCreated = [] ∧
      (EventProcessor.claimOwnershipCall p env req).errorsDelivered = []) ∧
    (∀ o rest, env.claimOwnership [req] = Except.ok (o :: rest) →
      (EventProcessor.claimOwnershipCall p env req).pumpStartPartitions
        = [req.partitionId]) := by
  constructor
  · intro h
    unfold EventProcessor.claimOwnershipCall
    rw [h]
    exact ⟨rfl, rfl, rfl⟩
  · intro o rest h
    unfold EventProcessor.claimOwnershipCall
    rw [h]
    cases hs : EventProcessor.startPump p env req.partitionId <;> rfl

/-- Witness for C5: with an empty claim response no pump starts and no
error is delivered; with a non-empty response the pump start for the
request partition is attempted. -/
theorem claim_attempt_outcome_witness :
    (EventProcessor.claimOwnershipCall procBalanced envClaimEmpty reqW).pumpStartPartitions
      = [] ∧
    (EventProcessor.claimOwnershipCall procBalanced envClaimEmpty reqW).errorsDelivered
      = [] ∧
    (EventProcessor.claimOwnershipCall procBalanced envOk reqW).pumpStartPartitions
      = ["0"] := by
  have h1 := (claim_attempt_outcome procBalanced envClaimEmpty reqW).1 rfl
  have h2 := (claim_attempt_outcome procBalanced envOk reqW).2 reqW [] rfl
  exact ⟨h1.1, h1.2.2, h2⟩

/-- C7: `start()` while running changes no state and launches no loop;
`start(); start()` launches exactly as many loops as the first `start()`
alone; a `start()` when not running sets `isRunning`, installs a fresh
cancellation source (a generation never used before) and launches the
loop bound to that same source. -/
theorem start_idempotent (s : ProcState) :
    (s.isRunning = true → EventProcessor.start s = s) ∧
    (s.isRunning = false →
      (EventProcessor.start s).isRunning = true ∧
      (EventProcessor.start s).loopsLaunched = s.loopsLaunched + 1 ∧
      (EventProcessor.start s).abortGen = some s.nextGen ∧
      (EventProcessor.start s).loopGen = (EventProcessor.start s).abortGen ∧
      (EventProcessor.start s).signalAborted = false ∧
      (s.wf → (EventProcessor.start s).abortGen ≠ s.abortGen)) ∧
    (EventProcessor.start (EventProcessor.start s)).loopsLaunched
      = (EventProcessor.start s).loopsLaunched := by
  refine ⟨?_, ?_, ?_⟩
  · intro h
    simp [EventProcessor.start, h]
  · intro h
    refine ⟨?_, ?_, ?_, ?_, ?_, ?_⟩
    · simp [EventProcessor.start, h]
    · simp [EventProcessor.start, h]
    · simp [EventProcessor.start, h]
    · simp [EventProcessor.start, h]
    · simp [EventProcessor.start, h]
    · intro hwf heq
      simp only [EventProcessor.start, h, Bool.false_eq_true, if_false] at heq
      cases hg : s.abortGen with
      | none => rw [hg] at heq; exact Option.noConfusion heq
      | some g =>
        rw [hg] at heq
        have hlt := hwf g hg
        have hne : s.nextGen = g := Option.some.inj heq
        omega
  · cases h : s.isRunning with
    | true => simp [EventProcessor.start, h]
    | false => simp [EventProcessor.start, h]

/-- Witness for C7: from a fresh state, the first `start()` flips
`isRunning` and a repeated `start(); start()` has launched exactly one
loop. -/
theorem start_idempotent_witness :
    ProcState.initial.isRunning = false ∧
    (EventProcessor.start ProcState.initial).isRunning = true ∧
    (EventProcessor.start (EventProcessor.start ProcState.initial)).loopsLaunched = 1 := by
  have h := start_idempotent ProcState.initial
  refine ⟨rfl, (h.2.1 rfl).1, ?_⟩
  rw [h.2.2, (h.2.1 rfl).2.1]
  rfl

/-- C9: in a balanced-loop iteration, if the abort signal is observed
aborted immediately after the partition-id fetch, the iteration returns at
once: the load balancer is not consulted and no claim is attempted. -/
theorem no_claims_after_cancellation_observed (p : EventProcessor) (env : Env)
    (ownerships : List PartitionOwnership) (partitionIds : List String)
    (hlist : env.listOwnership = Except.ok ownerships)
    (hpids : env.getPartitionIds = Except.ok partitionIds)
    (habort : env.abortedAfterFetch = true) :
    EventProcessor.balancedIteration p env =
      { returnedEarly := true, loadBalanceInvoked := false, claimBatches := []
        pumpStartPartitions := [], pumpsCreated := [], errorsDelivered := [] } := by
  unfold EventProcessor.balancedIteration
  rw [hlist, hpids]
  simp [habort]

/-- Witness for C9: a concrete aborted iteration returns early with an
empty trace. -/
theorem no_claims_after_cancellation_observed_witness :
    EventProcessor.balancedIteration procBalanced envAborted =
      { returnedEarly := true, loadBalanceInvoked := false, claimBatches := []
        pumpStartPartitions := [], pumpsCreated := [], errorsDelivered := [] } :=
  no_claims_after_cancellation_observed procBalanced envAborted [] ["0"] rfl rfl rfl

/-- C2: starting-position resolution obeys the priority chain.  With the
checkpoint fetch returning `cps`: a listed checkpoint of the partition
wins and yields exactly its offset; otherwise a user-supplied single
position with any of `offset`, `sequenceNumber`, `enqueuedOn` set is
returned as is; otherwise a partition-keyed user map containing the id
yields that entry; in every remaining case the result is the "latest"
position. -/
theorem starting_position_priority_chain (p : EventProcessor) (env : Env)
    (pid : String) (cps : List Checkpoint)
    (hcps : env.listCheckpoints = Except.ok cps) :
    ((cps.filter (fun c => c.partitionId == pid)) ≠ [] →
      ∃ c, c ∈ cps ∧ c.partitionId = pid ∧
        EventProcessor.getStartingPosition p env pid
          = Except.ok { offset := some c.offset, sequenceNumber := none, enqueuedOn := none }) ∧
    ((cps.filter (fun c => c.partitionId == pid)) = [] →
      (p.startPosition = none →
        EventProcessor.getStartingPosition p env pid = Except.ok latestEventPosition) ∧
      (∀ pos, p.startPosition = some (StartPositions.single pos) →
        (pos.offset.isSome || pos.sequenceNumber.isSome || pos.enqueuedOn.isSome) = true →
        EventProcessor.getStartingPosition p env pid = Except.ok pos) ∧
      (∀ pos, p.startPosition = some (StartPositions.single pos) →
        (pos.offset.isSome || pos.sequenceNumber.isSome || pos.enqueuedOn.isSome) = false →
        EventProcessor.getStartingPosition p env pid = Except.ok latestEventPosition) ∧
      (∀ m pos, p.startPosition = some (StartPositions.perPartition m) →
        lookupPosition m pid = some pos →
        EventProcessor.getStartingPosition p env pid = Except.ok pos) ∧
      (∀ m, p.startPosition = some (StartPositions.perPartition m) →
        lookupPosition m pid = none →
        EventProcessor.getStartingPosition p env pid = Except.ok latestEventPosition)) := by
  have hres : EventProcessor.getStartingPosition p env pid
      = (match cps.filter (fun chk => chk.partitionId == pid) with
         | chk :: _ =>
           Except.ok { offset := some chk.offset, sequenceNumber := none, enqueuedOn := none }
         | [] => Except.ok (getStartPosition pid p.startPosition)) := by
    unfold EventProcessor.getStartingPosition
    rw [hcps]
  cases hfil : cps.filter (fun c => c.partitionId == pid) with
  | cons c rest =>
    rw [hfil] at hres
    constructor
    · intro _
      have hmem : c ∈ cps.filter (fun c => c.partitionId == pid) := by
        rw [hfil]; exact List.mem_cons_self c rest
      exact ⟨c, (List.mem_filter.mp hmem).1,
        beq_iff_eq.mp (List.mem_filter.mp hmem).2, hres⟩
    · intro h
      exact absurd h (List.cons_ne_nil c rest)
  | nil =>
    rw [hfil] at hres
    constructor
    · intro h
      exact absurd rfl h
    · intro _
      refine ⟨?_, ?_, ?_, ?_, ?_⟩
      · intro h; rw [hres]; simp [getStartPosition, h]
      · intro pos h hfields; rw [hres]; simp [getStartPosition, h, hfields]
      · intro pos h hfields; rw [hres]; simp [getStartPosition, h, hfields]
      · intro m pos h hlook; rw [hres]; simp [getStartPosition, h, hlook]
      · intro m h hlook; rw [hres]; simp [getStartPosition, h, hlook]

/-- Witness for C2: with checkpoint `(partition "0", offset "42")` on
record, the resolved starting position is exactly `offset "42"` (spec
scenario S5). -/
theorem starting_position_priority_chain_witness :
    ∃ c, c ∈ [chkW] ∧ c.partitionId = "0" ∧
      EventProcessor.getStartingPosition procBalanced envChk "0"
        = Except.ok { offset := some c.offset, sequenceNumber := none, enqueuedOn := none } :=
  (starting_position_priority_chain procBalanced envChk "0" [chkW] rfl).1 (by decide)

/-- C6: for every partition the balancer returns, the balanced loop
submits exactly one claim batch holding the request built by
`_createPartitionOwnershipRequest`; that request carries the id of this
processor as `ownerId`, the claimed partition id, and an etag copied from the
abandoned-ownership map entry when one exists, else from the
live-ownership map entry when one exists, else left unset. -/
theorem claim_request_construction (p : EventProcessor) (env : Env)
    (ownerships : List PartitionOwnership) (partitionIds toClaim : List String)
    (hlist : env.listOwnership = Except.ok ownerships)
    (hpids : env.getPartitionIds = Except.ok partitionIds)
    (habort : env.abortedAfterFetch = false)
    (hne : partitionIds.length > 0)
    (hlb : env.loadBalance p.id (partitionMaps ownerships).2 partitionIds
      = some toClaim) :
    (EventProcessor.balancedIteration p env).claimBatches
      = toClaim.map (fun pid =>
          [EventProcessor.ownershipRequestFor p (partitionMaps ownerships).1
            (partitionMaps ownerships).2 pid]) ∧
    (∀ am lm pid,
      (EventProcessor.ownershipRequestFor p am lm pid).ownerId = p.id ∧
      (EventProcessor.ownershipRequestFor p am lm pid).partitionId = pid ∧
      (EventProcessor.ownershipRequestFor p am lm pid).etag
        = (match mapGet am pid with
           | some prev => prev.etag
           | none =>
             match mapGet lm pid with
             | some prev => prev.etag
             | none => none)) := by
  constructor
  · unfold EventProcessor.balancedIteration
    rw [hlist, hpids]
    simp only [habort, Bool.false_eq_true, if_false, hne, if_true, hlb]
    rw [List.map_map]
    have hmap : List.map
        ((fun t => ClaimTrace.claimBatches t) ∘
          (fun partitionToClaim => EventProcessor.claimOwnershipCall p env
            (EventProcessor.ownershipRequestFor p (partitionMaps ownerships).1
              (partitionMaps ownerships).2 partitionToClaim))) toClaim
        = List.map (fun pid =>
            [[EventProcessor.ownershipRequestFor p (partitionMaps ownerships).1
              (partitionMaps ownerships).2 pid]]) toClaim := by
      apply List.map_congr_left
      intro pid _
      exact claimOwnershipCall_claimBatches p env _
    rw [hmap]
    exact flatten_map_singleton
      (fun pid => [EventProcessor.ownershipRequestFor p (partitionMaps ownerships).1
        (partitionMaps ownerships).2 pid]) toClaim
  · intro am lm pid
    unfold EventProcessor.ownershipRequestFor
    cases hg : mapGet am pid with
    | some prev =>
      have hh : mapHas am pid = true := by
        unfold mapHas; rw [hg]; rfl
      rw [hh]
      simp only [if_true]
      unfold EventProcessor.createPartitionOwnershipRequest
      rw [hg]
      exact ⟨rfl, rfl, rfl⟩
    | none =>
      have hh : mapHas am pid = false := by
        unfold mapHas; rw [hg]; rfl
      rw [hh]
      simp only [Bool.false_eq_true, if_false]
      unfold EventProcessor.createPartitionOwnershipRequest
      cases hl : mapGet lm pid with
      | some prev => exact ⟨rfl, rfl, rfl⟩
      | none => exact ⟨rfl, rfl, rfl⟩

/-- Witness for C6: with an abandoned row for partition `"0"` (etag
`"e1"`), a live row of peer `"B"` for `"1"` (etag `"e2"`) and nothing for
`"2"`, one iteration submits three singleton claim batches whose etags
come from the abandoned map, the live map, and are unset,
respectively. -/
theorem claim_request_construction_witness :
    (EventProcessor.balancedIteration procBalanced envTwoRows).claimBatches
      = ["0", "1", "2"].map (fun pid =>
          [EventProcessor.ownershipRequestFor procBalanced
            (partitionMaps [rowAbandoned, rowOwnedByB]).1
            (partitionMaps [rowAbandoned, rowOwnedByB]).2 pid]) ∧
    (EventProcessor.ownershipRequestFor procBalanced
      (partitionMaps [rowAbandoned, rowOwnedByB]).1
      (partitionMaps [rowAbandoned, rowOwnedByB]).2 "0").etag = some "e1" ∧
    (EventProcessor.ownershipRequestFor procBalanced
      (partitionMaps [rowAbandoned, rowOwnedByB]).1
      (partitionMaps [rowAbandoned, rowOwnedByB]).2 "1").etag = some "e2" ∧
    (EventProcessor.ownershipRequestFor procBalanced
      (partitionMaps [rowAbandoned, rowOwnedByB]).1
      (partitionMaps [rowAbandoned, rowOwnedByB]).2 "2").etag = none := by
  have h := claim_request_construction procBalanced envTwoRows
    [rowAbandoned, rowOwnedByB] ["0", "1", "2"] ["0", "1", "2"]
    rfl rfl rfl (by decide) rfl
  exact ⟨h.1, rfl, rfl, rfl⟩

/-- C3: in balanced mode, shutdown abandonment re-lists the ownerships and
submits one `claimOwnership` batch containing exactly the rows whose
`ownerId` equals the id of this processor, each with `ownerId` blanked and
every other field (etag included) unchanged; whatever subset the store
reports as written, the abandonment accepts it without retry or error. -/
theorem graceful_abandonment (p : EventProcessor) (env : Env)
    (allOwnerships ret : List PartitionOwnership)
    (hlist : env.listOwnership = Except.ok allOwnerships)
    (hclaim : env.claimOwnership (EventProcessor.abandonRequests p allOwnerships)
      = Except.ok ret) :
    EventProcessor.abandonPartitionOwnerships p env = Except.ok ret ∧
    (∀ r, r ∈ EventProcessor.abandonRequests p allOwnerships ↔
      ∃ o, o ∈ allOwnerships ∧ o.ownerId = p.id ∧ r = { o with ownerId := "" }) := by
  constructor
  · unfold EventProcessor.abandonPartitionOwnerships
    rw [hlist]
    exact hclaim
  · intro r
    unfold EventProcessor.abandonRequests
    constructor
    · intro hr
      obtain ⟨o, ho, rfl⟩ := List.mem_map.mp hr
      have hf := List.mem_filter.mp ho
      exact ⟨o, hf.1, beq_iff_eq.mp hf.2, rfl⟩
    · rintro ⟨o, ho, hid, rfl⟩
      exact List.mem_map.mpr ⟨o, List.mem_filter.mpr ⟨ho, beq_iff_eq.mpr hid⟩, rfl⟩

/-- Witness for C3: with rows owned by `"A"` and `"B"` on record,
processor `"A"` submits exactly its own row with `ownerId` blanked and
etag `"e3"` preserved, and the abandonment completes. -/
theorem graceful_abandonment_witness :
    EventProcessor.abandonPartitionOwnerships procBalanced envAbandon
      = Except.ok [{ rowOwnedByA with ownerId := "" }] ∧
    { rowOwnedByA with ownerId := "" } ∈
      EventProcessor.abandonRequests procBalanced [rowOwnedByA, rowOwnedByB] := by
  have h := graceful_abandonment procBalanced envAbandon [rowOwnedByA, rowOwnedByB]
    [{ rowOwnedByA with ownerId := "" }] rfl rfl
  exact ⟨h.1, (h.2 _).mpr ⟨rowOwnedByA, List.mem_cons_self _ _, rfl, rfl⟩⟩

/-- C1 counterexample: in balanced mode, when `listOwnership` rejects
during `abandonPartitionOwnerships`, `stop()` itself rejects with that
error — the abandonment call at source line 927 sits outside the
`try/catch` of lines 909-922 — refuting the claim that `stop()` returns
normally when abandonment reads or writes fail. -/
theorem stop_counterexample_abandonment_error_propagates :
    (EventProcessor.stop procBalanced envListThrows ProcState.initial).2
      = Except.error listFailure ∧
    (EventProcessor.stop procBalanced envListThrows ProcState.initial).2
      ≠ Except.ok () := by
  refine ⟨rfl, ?_⟩
  intro h
  rw [show (EventProcessor.stop procBalanced envListThrows ProcState.initial).2
      = Except.error listFailure from rfl] at h
  exact Except.noConfusion h

/-- C1 amended: `stop()` returns normally from every state — including a
second `stop()` without an intervening `start()` and runs where closing
pumps or awaiting the loop fails, whose errors the `try/catch` swallows —
in single-partition mode unconditionally, and in balanced mode whenever
the `listOwnership`/`claimOwnership` calls of the abandonment phase do not
themselves reject. -/
theorem stop_returns_normally_amended (p : EventProcessor) (env : Env)
    (s : ProcState)
    (h : targetWithoutOwnership p.processingTarget = false →
      ∃ ret, EventProcessor.abandonPartitionOwnerships p env = Except.ok ret) :
    (EventProcessor.stop p env s).2 = Except.ok () := by
  unfold EventProcessor.stop
  cases ht : targetWithoutOwnership p.processingTarget with
  | true => simp [ht]
  | false =>
    obtain ⟨ret, hr⟩ := h ht
    simp [ht, hr]

/-- Witness for C1 (amended): a balanced processor whose pump closure and
loop task both fail still stops normally, both on a first `stop()` after
`start()` and on a second `stop()` without an intervening `start()`. -/
theorem stop_returns_normally_amended_witness :
    (EventProcessor.stop procBalanced envPumpsFail ProcState.initial).2
      = Except.ok () ∧
    (EventProcessor.stop procBalanced envPumpsFail
      (EventProcessor.stop procBalanced envPumpsFail
        (EventProcessor.start ProcState.initial)).1).2 = Except.ok () :=
  ⟨stop_returns_normally_amended procBalanced envPumpsFail ProcState.initial
      (fun _ => ⟨[], rfl⟩),
    stop_returns_normally_amended procBalanced envPumpsFail _
      (fun _ => ⟨[], rfl⟩)⟩
